import Mathlib

/-
Verification of the client-side rate limiter and request-dispatch gate of
`src/rustmaps/rustmaps.py` (class `Rustmaps`).

Shallow embedding conventions:
* Timestamps are `Int` values in epoch nanoseconds (`time.time_ns()` returns a
  Python int).  The mutable field `self._request_timestamps` is threaded
  explicitly as a `List Int`.
* Each outbound operation takes the two clock readings it performs as
  parameters: `now` is the value of `time.time_ns()` inside
  `_is_rate_limited`, `now2` the value read at the append
  (`self._request_timestamps.append(time.time_ns())`).
* The HTTP transport is an external collaborator: the response the transport
  would deliver is passed in as a `Response` (status code plus body).  JSON
  object bodies are modelled as association lists `List (String × JVal)`;
  values are restricted to strings and booleans, which covers every field the
  claims mention.  `Body.invalid` stands for a body `r.json()` fails to parse.
* Python exceptions (`ValueError`, `requests.HTTPError`, `KeyError`,
  `json.JSONDecodeError`, `RuntimeError`) become the `Except PyError` monad;
  a `warnings.warn` call is recorded in the `warned` flag of `CallResult`.
* `requests.Response.raise_for_status` raises `HTTPError` exactly for status
  codes in [400, 600); it is a no-op for all other codes.
-/

/-- A JSON value, restricted to the shapes the claims exercise
(string fields such as `reason`/`mapId`, and the boolean `exists` tag). -/
inductive JVal : Type
  | str (s : String)
  | bool (b : Bool)
deriving DecidableEq, Repr

/-- Python truthiness of a modelled JSON value (`""` and `False` are falsy). -/
def truthy : JVal → Bool
  | .str s => s ≠ ""
  | .bool b => b

/-- An HTTP response body: either a JSON object or something `r.json()`
cannot parse. -/
inductive Body : Type
  | invalid
  | json (fields : List (String × JVal))
deriving DecidableEq, Repr

/-- An HTTP response as seen by the client: status code and body. -/
structure Response where
  status : Nat
  body : Body
deriving DecidableEq, Repr

/-- The Python exceptions the embedded code can raise. -/
inductive PyError : Type
  | valueError (msg : String)
  | httpError (status : Nat)
  | keyError (key : String)
  | decodeError
  | runtimeError (reason : JVal)
deriving DecidableEq, Repr

/-- Dict read `d[k]`: first binding of `k`, if any (keys are unique in a
parsed JSON object, so first = only). -/
def getKey? : List (String × JVal) → String → Option JVal
  | [], _ => none
  | (a, b) :: t, k => if a = k then some b else getKey? t k

/-- Dict write `d[k] = v`: replace the binding of `k` in place if present,
append it otherwise (Python dict insertion-order semantics). -/
def setKey : List (String × JVal) → String → JVal → List (String × JVal)
  | [], k, v => [(k, v)]
  | (a, b) :: t, k, v => if a = k then (a, v) :: t else (a, b) :: setKey t k v

/-- `r.json()`: the parsed object, or `json.JSONDecodeError`. -/
def body_json : Body → Except PyError (List (String × JVal))
  | .invalid => .error .decodeError
  | .json f => .ok f

/-- `requests.Response.raise_for_status()`: raises `HTTPError` for 4xx/5xx
status codes and does nothing for every other code. -/
def raise_for_status (status : Nat) : Except PyError Unit :=
  if 400 ≤ status ∧ status < 600 then .error (.httpError status) else .ok ()

/-- `self.MIN_MAP_SEED` (rustmaps.py line 85). -/
def MIN_MAP_SEED : Int := 0

/-- `self.MAX_MAP_SEED` (rustmaps.py line 86). -/
def MAX_MAP_SEED : Int := 2147483645

/-- `self.MIN_MAP_SIZE` (rustmaps.py line 87). -/
def MIN_MAP_SIZE : Int := 1000

/-- `self.MAX_MAP_SIZE` (rustmaps.py line 88). -/
def MAX_MAP_SIZE : Int := 6000

/-- `self.MAX_REQUESTS_PER_MINUTE` (rustmaps.py line 89). -/
def MAX_REQUESTS_PER_MINUTE : Nat := 80

/-- `self.MAX_REQUESTS_PER_HOUR` (rustmaps.py line 90). -/
def MAX_REQUESTS_PER_HOUR : Nat := 3600

/-- `self._API_URL` (rustmaps.py line 73). -/
def API_URL : String := "https://rustmaps.com/api/v2"

/-- `str()` of a Python bool, as rendered into f-strings. -/
def pyStr : Bool → String
  | true => "True"
  | false => "False"

/-- The `REQUEST_URL` built by `get_map` / `generate_map` (lines 220-223 and
299-302). -/
def map_url (seed size : Int) (staging barren : Bool) : String :=
  API_URL ++ "/maps/" ++ toString seed ++ "/" ++ toString size ++
    "?staging=" ++ pyStr staging ++ "&barren=" ++ pyStr barren

/-- The `REQUEST_URL` built by `get_map_by_id` (lines 240-243). -/
def map_id_url (map_id : String) (staging barren : Bool) : String :=
  API_URL ++ "/maps/" ++ map_id ++
    "?staging=" ++ pyStr staging ++ "&barren=" ++ pyStr barren

/-- `stamp_diff = int(ceil((now - stamp) / (10 ** 9)))` (line 108): the number
of elapsed seconds since `stamp`, rounded up to the next whole second.
`(a + 999999999) / 1000000000` with Lean's floor division on `Int` is the
exact ceiling of `a / 10^9`; theorem `elapsedSec_eq_ceil` below proves this
against Mathlib's `Int.ceil`. -/
def elapsedSec (now stamp : Int) : Int :=
  (now - stamp + 999999999) / 1000000000

/-- The `for stamp in self._request_timestamps:` loop of `_is_rate_limited`
(lines 106-117), with Python's list-iterator semantics made explicit: the
iterator walks an index `i` into the (mutated) list, and
`self._request_timestamps.remove(stamp)` deletes the first occurrence of the
value (`List.erase`) while `i` still advances, so the element that slides
into the removed slot is never visited.  `fuel` is an upper bound on the
number of iterations (the index grows by one per iteration and the list never
grows, so the initial list length always suffices); it only makes the
recursion structural, it never cuts the loop short when initialised that
way. -/
def scanStamps (now : Int) : Nat → List Int → Nat → Nat → Nat → Nat × Nat × List Int
  | 0, lst, _, mins, hrs => (mins, hrs, lst)
  | fuel + 1, lst, i, mins, hrs =>
    if h : i < lst.length then
      let stamp := lst[i]
      let stamp_diff := elapsedSec now stamp
      if stamp_diff > 3600 then
        scanStamps now fuel (lst.erase stamp) (i + 1) mins hrs
      else
        scanStamps now fuel lst (i + 1)
          (if stamp_diff ≤ 60 then mins + 1 else mins)
          (if stamp_diff ≤ 3600 then hrs + 1 else hrs)
    else
      (mins, hrs, lst)

/-- `Rustmaps._is_rate_limited` (lines 92-123).  Returns the boolean result
together with the timestamp list as left behind by the pruning side effect. -/
def is_rate_limited (now : Int) (ts : List Int) : Bool × List Int :=
  if ts.length = 0 then (false, ts)
  else
    let scan := scanStamps now ts.length ts 0 0 0
    (decide (MAX_REQUESTS_PER_MINUTE ≤ scan.1) ||
      decide (MAX_REQUESTS_PER_HOUR ≤ scan.2.1), scan.2.2)

/-- `Rustmaps._validate_map_seed` (lines 128-146): `True` for an in-bounds
seed, `ValueError` otherwise. -/
def validate_map_seed (seed : Int) : Except PyError Bool :=
  if MIN_MAP_SEED ≤ seed ∧ seed ≤ MAX_MAP_SEED then .ok true
  else .error (.valueError (toString seed ++ " is out of range. [" ++
    toString MIN_MAP_SEED ++ ":" ++ toString MAX_MAP_SEED ++ "]"))

/-- `Rustmaps._validate_map_size` (lines 148-166). -/
def validate_map_size (size : Int) : Except PyError Bool :=
  if MIN_MAP_SIZE ≤ size ∧ size ≤ MAX_MAP_SIZE then .ok true
  else .error (.valueError (toString size ++ " is out of range. [" ++
    toString MIN_MAP_SIZE ++ ":" ++ toString MAX_MAP_SIZE ++ "]"))

/-- One character of `[\da-f]` under `re.IGNORECASE` (ASCII range; the claims
never involve non-ASCII digits). -/
def hexChar (c : Char) : Bool :=
  ('0' ≤ c && c ≤ '9') || ('a' ≤ c && c ≤ 'f') || ('A' ≤ c && c ≤ 'F')

/-- Consume exactly `n` hex characters, returning the rest of the input. -/
def takeHex : Nat → List Char → Option (List Char)
  | 0, cs => some cs
  | _ + 1, [] => none
  | n + 1, c :: cs => if hexChar c then takeHex n cs else none

/-- Consume a literal dash. -/
def expectDash : List Char → Option (List Char)
  | '-' :: cs => some cs
  | _ => none

/-- `Rustmaps._validate_uuid` (lines 125-126): match against the anchored
pattern `[\da-f]{8}-([\da-f]{4}-){3}[\da-f]{12}`, case-insensitively.
(Python's `$` would additionally accept one trailing newline; no claim
depends on that quirk.) -/
def validate_uuid (uuid : String) : Bool :=
  match (takeHex 8 uuid.toList).bind expectDash |>.bind (takeHex 4)
      |>.bind expectDash |>.bind (takeHex 4) |>.bind expectDash
      |>.bind (takeHex 4) |>.bind expectDash |>.bind (takeHex 12) with
  | some [] => true
  | _ => false

/-- The value `_get_map_data` hands back to its caller: the parsed map data
(`r.json()`), or the Python literal `False` for a map that has not been
generated.  A skipped or silently-completed call returns `none` (Python
`None`), hence the `Option` wrapper at the use sites. -/
inductive GetVal : Type
  | mapData (fields : List (String × JVal))
  | notGenerated
deriving DecidableEq, Repr

/-- Result of one outbound operation: the timestamp list it leaves behind,
whether a `RuntimeWarning` was emitted, and the returned value or raised
exception. -/
structure CallResult (α : Type) where
  state : List Int
  warned : Bool
  result : Except PyError α

/-- The status-code dispatch of `_get_map_data` (lines 193-204): 200 and 409
return `r.json()`, 404 returns `False`, everything else goes through
`raise_for_status` (and so falls through to an implicit `return None` when
the status is not 4xx/5xx). -/
def interpret_get (r : Response) : Except PyError (Option GetVal) :=
  if r.status = 200 then
    match body_json r.body with
    | .error e => .error e
    | .ok f => .ok (some (.mapData f))
  else if r.status = 404 then
    .ok (some .notGenerated)
  else if r.status = 409 then
    match body_json r.body with
    | .error e => .error e
    | .ok f => .ok (some (.mapData f))
  else
    match raise_for_status r.status with
    | .error e => .error e
    | .ok _ => .ok none

/-- `Rustmaps._get_map_data` (lines 168-204): rate-limit gate (warn and
return `None` when limited, leaving only the pruning mutation behind), then
the optimistic timestamp append, then the transport call and status
dispatch. -/
def get_map_data (now now2 : Int) (ts : List Int) (url : String)
    (r : Response) : CallResult (Option GetVal) :=
  let check := is_rate_limited now ts
  if check.1 then
    ⟨check.2, true, .ok none⟩
  else
    ⟨check.2 ++ [now2], false, interpret_get r⟩

/-- `Rustmaps.get_map` (lines 206-225): validate seed, validate size, then
delegate to `_get_map_data` with the built URL. -/
def get_map (now now2 : Int) (ts : List Int) (seed size : Int)
    (staging barren : Bool) (r : Response) : CallResult (Option GetVal) :=
  match validate_map_seed seed with
  | .error e => ⟨ts, false, .error e⟩
  | .ok _ =>
    match validate_map_size size with
    | .error e => ⟨ts, false, .error e⟩
    | .ok _ => get_map_data now now2 ts (map_url seed size staging barren) r

/-- `Rustmaps.get_map_by_id` (lines 227-245): validate the UUID, then
delegate to `_get_map_data`. -/
def get_map_by_id (now now2 : Int) (ts : List Int) (map_id : String)
    (staging barren : Bool) (r : Response) : CallResult (Option GetVal) :=
  if validate_uuid map_id then
    get_map_data now now2 ts (map_id_url map_id staging barren) r
  else
    ⟨ts, false, .error (.valueError (map_id ++ " is not a valid UUID"))⟩

/-- The status-code dispatch of `generate_map` (lines 308-328): 200 tags the
payload with `exists = False`; 400 raises `RuntimeError(r.json()['reason'])`
when the parsed body and the reason are both truthy, raises `KeyError` when
the truthy body lacks the key, and otherwise falls back to
`raise_for_status`; 409 tags the payload with `exists = True`; everything
else goes through `raise_for_status`. -/
def interpret_generate (r : Response) :
    Except PyError (Option (List (String × JVal))) :=
  if r.status = 200 then
    match body_json r.body with
    | .error e => .error e
    | .ok f => .ok (some (setKey f "exists" (.bool false)))
  else if r.status = 400 then
    match body_json r.body with
    | .error e => .error e
    | .ok f =>
      if f.isEmpty then
        match raise_for_status r.status with
        | .error e => .error e
        | .ok _ => .ok none
      else
        match getKey? f "reason" with
        | none => .error (.keyError "reason")
        | some v =>
          if truthy v then .error (.runtimeError v)
          else
            match raise_for_status r.status with
            | .error e => .error e
            | .ok _ => .ok none
  else if r.status = 409 then
    match body_json r.body with
    | .error e => .error e
    | .ok f => .ok (some (setKey f "exists" (.bool true)))
  else
    match raise_for_status r.status with
    | .error e => .error e
    | .ok _ => .ok none

/-- `Rustmaps.generate_map` (lines 274-328).  Note the Python method performs
no seed/size validation: it goes straight from the rate-limit gate to URL
construction, timestamp append and the POST. -/
def generate_map (now now2 : Int) (ts : List Int) (seed size : Int)
    (staging barren : Bool) (r : Response) :
    CallResult (Option (List (String × JVal))) :=
  let check := is_rate_limited now ts
  if check.1 then
    ⟨check.2, true, .ok none⟩
  else
    let _REQUEST_URL := map_url seed size staging barren
    ⟨check.2 ++ [now2], false, interpret_generate r⟩

/-- `True` exactly for an `Except.ok` result. -/
def exOk {α : Type} : Except PyError α → Bool
  | .ok _ => true
  | .error _ => false

/-- `True` exactly when the outcome is a raised `ValueError` (the library's
validation error). -/
def isValueError {α : Type} : Except PyError α → Bool
  | .error (.valueError _) => true
  | _ => false

/-- `True` exactly when the outcome is a raised `HTTPError` (the generic
transport error carrying a status code). -/
def isTransportError {α : Type} : Except PyError α → Bool
  | .error (.httpError _) => true
  | _ => false

/-- Modelled from the spec: the number of recorded timestamps whose elapsed
time (rounded up to whole seconds) lies within a window of `w` seconds.  The
spec characterises `isAllowed()` through these counts; the definition exists
to be compared against `is_rate_limited`. -/
def specCountWithin (now w : Int) (ts : List Int) : Nat :=
  (ts.filter fun s => decide (elapsedSec now s ≤ w)).length

/-! ## Helper lemmas -/

/-- The floor-division formula used by `elapsedSec` computes the exact
ceiling of `a / 10^9`. -/
theorem add_pred_div_pow9_eq_ceil (a : Int) :
    (a + 999999999) / 1000000000 = ⌈(a : ℚ) / 1000000000⌉ := by
  have h1 : a ≤ (a + 999999999) / 1000000000 * 1000000000 := by omega
  have h2 : ((a + 999999999) / 1000000000 - 1) * 1000000000 < a := by omega
  symm
  rw [Int.ceil_eq_iff]
  constructor
  · have hc : (((a + 999999999) / 1000000000 - 1 : Int) : ℚ) * 1000000000 <
        (a : ℚ) := by exact_mod_cast h2
    have : ((((a + 999999999) / 1000000000 : Int) : ℚ) - 1) * 1000000000 <
        (a : ℚ) := by push_cast at hc ⊢; linarith
    calc (((a + 999999999) / 1000000000 : Int) : ℚ) - 1
        < (a : ℚ) / 1000000000 := by
          rw [lt_div_iff (by norm_num : (0 : ℚ) < 1000000000)]
          exact this
      _ ≤ (a : ℚ) / 1000000000 := le_refl _
  · have hc : (a : ℚ) ≤ (((a + 999999999) / 1000000000 : Int) : ℚ) *
        1000000000 := by exact_mod_cast h1
    rw [div_le_iff (by norm_num : (0 : ℚ) < 1000000000)]
    exact hc

/-- Reading back the key just written by `setKey`. -/
theorem getKey?_setKey_self (f : List (String × JVal)) (k : String) (v : JVal) :
    getKey? (setKey f k v) k = some v := by
  induction f with
  | nil => simp [setKey, getKey?]
  | cons p t ih =>
    obtain ⟨a, b⟩ := p
    by_cases h : a = k
    · simp [setKey, getKey?, h]
    · simp [setKey, getKey?, h, ih]

/-- `setKey` leaves every other key untouched. -/
theorem getKey?_setKey_ne (f : List (String × JVal)) (k k' : String) (v : JVal)
    (h : k' ≠ k) : getKey? (setKey f k v) k' = getKey? f k' := by
  induction f with
  | nil => simp [setKey, getKey?, Ne.symm h]
  | cons p t ih =>
    obtain ⟨a, b⟩ := p
    by_cases ha : a = k
    · subst ha
      simp [setKey, getKey?, Ne.symm h]
    · simp [setKey, getKey?, ha, ih]

/-- A successful `getKey?` needs at least one field. -/
theorem getKey?_some_ne_nil {f : List (String × JVal)} {k : String} {v : JVal}
    (h : getKey? f k = some v) : f ≠ [] := by
  intro hf
  subst hf
  simp [getKey?] at h

/-! ## Claims -/

/-- C1: the claim says that after a single `isAllowed()` evaluation the
Timestamp Record contains no entry whose elapsed time (rounded up) exceeds
3600 seconds.  The code violates it: `_is_rate_limited` removes elements of
`self._request_timestamps` while iterating over it, so the element that
slides into a removed slot is skipped.  At `now = 4000·10⁹` ns with two
consecutive stale entries (3601 s and 3700 s old), the pass removes the first
but leaves the second in the record, 3700 s old. -/
theorem c1_prune_pass_leaves_stale_entry :
    (is_rate_limited (4000 * 1000000000)
      [399 * 1000000000, 300 * 1000000000]).2 = [300 * 1000000000] ∧
    elapsedSec (4000 * 1000000000) (300 * 1000000000) = 3700 ∧
    elapsedSec (4000 * 1000000000) (399 * 1000000000) = 3601 := by
  refine ⟨by decide, by decide, by decide⟩

/-- C2: the claim says `isAllowed()` returns false iff at least 80 entries
lie within the last 60 seconds or at least 3600 within the last hour.  The
code violates it: with a record holding one stale entry followed by 80 fresh
ones, removing the stale entry makes the iterator skip the first fresh entry,
so only 79 are counted and the call is allowed although 80 entries lie within
the minute window (and the hour count, 80, is below its cap, so the claimed
characterisation demands `false`). -/
theorem c2_eighty_in_minute_window_but_allowed :
    specCountWithin (3601 * 1000000000) 60
      ((0 : Int) :: List.replicate 80 (3601 * 1000000000)) = 80 ∧
    specCountWithin (3601 * 1000000000) 3600
      ((0 : Int) :: List.replicate 80 (3601 * 1000000000)) = 80 ∧
    (is_rate_limited (3601 * 1000000000)
      ((0 : Int) :: List.replicate 80 (3601 * 1000000000))).1 = false := by
  refine ⟨by decide, by decide, by decide⟩

/-- C9: the claim says two immediately consecutive `isAllowed()` calls (same
current time, no intervening record) return the same boolean.  The code
violates it: on a record with one stale entry followed by 80 fresh ones, the
first call prunes the stale entry but skips (and fails to count) one fresh
entry, returning allowed; the second call scans the now-clean record, counts
all 80 and returns not-allowed. -/
theorem c9_consecutive_checks_disagree :
    (is_rate_limited (3601 * 1000000000)
      ((0 : Int) :: List.replicate 80 (3601 * 1000000000))).1 = false ∧
    (is_rate_limited (3601 * 1000000000)
      (is_rate_limited (3601 * 1000000000)
        ((0 : Int) :: List.replicate 80 (3601 * 1000000000))).2).1 = true := by
  refine ⟨by decide, by decide⟩

/-- C5: when the rate-limit check answers "limited", both outbound
operations set the warning flag, return `None` without raising, leave the
record exactly as the pruning pass left it (nothing appended), and their
outcome does not depend on the transport response or on the second clock
reading — the network is never contacted. -/
theorem c5_rate_limited_skip (now now2 now2' : Int) (ts : List Int)
    (url : String) (seed size : Int) (staging barren : Bool) (r r' : Response)
    (h : (is_rate_limited now ts).1 = true) :
    get_map_data now now2 ts url r =
      ⟨(is_rate_limited now ts).2, true, .ok none⟩ ∧
    get_map_data now now2 ts url r = get_map_data now now2' ts url r' ∧
    generate_map now now2 ts seed size staging barren r =
      ⟨(is_rate_limited now ts).2, true, .ok none⟩ ∧
    generate_map now now2 ts seed size staging barren r =
      generate_map now now2' ts seed size staging barren r' := by
  refine ⟨?_, ?_, ?_, ?_⟩ <;> simp [get_map_data, generate_map, h]

/-- C5 witness: a record of 80 fresh timestamps is rate-limited, and the
skip behaves as stated. -/
theorem c5_rate_limited_skip_witness :
    (is_rate_limited 0 (List.replicate 80 (0 : Int))).1 = true ∧
    get_map_data 0 7 (List.replicate 80 (0 : Int)) "url" ⟨200, Body.json []⟩ =
      ⟨(is_rate_limited 0 (List.replicate 80 (0 : Int))).2, true, .ok none⟩ :=
  ⟨by decide,
    (c5_rate_limited_skip 0 7 9 (List.replicate 80 (0 : Int)) "url" 1 3000
      false false ⟨200, Body.json []⟩ ⟨500, Body.invalid⟩ (by decide)).1⟩

/-- C6: when the rate-limit check answers "not limited", both outbound
operations append exactly one timestamp — the second clock reading — to the
pruned record, whatever the transport response is (so a failed call still
consumes quota), and no warning is emitted. -/
theorem c6_attempt_appends_one_timestamp (now now2 : Int) (ts : List Int)
    (url : String) (seed size : Int) (staging barren : Bool) (r : Response)
    (h : (is_rate_limited now ts).1 = false) :
    (get_map_data now now2 ts url r).state =
      (is_rate_limited now ts).2 ++ [now2] ∧
    (get_map_data now now2 ts url r).warned = false ∧
    (generate_map now now2 ts seed size staging barren r).state =
      (is_rate_limited now ts).2 ++ [now2] ∧
    (generate_map now now2 ts seed size staging barren r).warned = false := by
  refine ⟨?_, ?_, ?_, ?_⟩ <;> simp [get_map_data, generate_map, h]

/-- C6 witness: on an empty record the call is attempted, and even a 500
response (which raises `HTTPError`) leaves the appended timestamp behind. -/
theorem c6_attempt_appends_one_timestamp_witness :
    (is_rate_limited 0 ([] : List Int)).1 = false ∧
    (get_map_data 0 7 [] "url" ⟨500, Body.invalid⟩).state =
      (is_rate_limited 0 ([] : List Int)).2 ++ [7] ∧
    isTransportError (get_map_data 0 7 [] "url" ⟨500, Body.invalid⟩).result =
      true :=
  ⟨by decide,
    (c6_attempt_appends_one_timestamp 0 7 [] "url" 1 3000 false false
      ⟨500, Body.invalid⟩ (by decide)).1,
    by decide⟩

/-- `interpret_generate` produces only `RuntimeError`, `KeyError`,
`JSONDecodeError` or `HTTPError` — never a `ValueError`. -/
theorem isValueError_interpret_generate (r : Response) :
    isValueError (interpret_generate r) = false := by
  unfold interpret_generate raise_for_status body_json
  rcases r with ⟨st, b⟩
  rcases b with _ | f <;> dsimp only <;>
    (repeat' first
      | rfl
      | split) <;>
    (rename_i heq; split at heq <;> cases heq <;> rfl)

/-- C3 counterexample: the claim says request-generation-by-seed-and-size
raises a validation error for out-of-bounds inputs before any network
activity or timestamp recording.  The code's `generate_map` performs no
seed/size validation at all: with seed −1 and size 500 — both rejected by the
library's own validators — the call proceeds, records its timestamp and
returns the interpreted 200 payload. -/
theorem c3_generate_map_skips_validation :
    isValueError (validate_map_seed (-1)) = true ∧
    isValueError (validate_map_size 500) = true ∧
    (generate_map 0 7 [] (-1) 500 false false ⟨200, Body.json []⟩).state =
      [7] ∧
    (generate_map 0 7 [] (-1) 500 false false ⟨200, Body.json []⟩).result =
      .ok (some [("exists", JVal.bool false)]) := by
  refine ⟨by decide, by decide, rfl, rfl⟩

/-- C3 (amended): validation accepts a seed iff 0 ≤ s ≤ 2147483645 and a size
iff 1000 ≤ z ≤ 6000; the fetch-by-seed-and-size operation validates both and
raises `ValueError` before any network activity and before any timestamp is
recorded, but the request-generation operation performs no client-side
validation — it never raises a `ValueError`, and out-of-bounds values travel
to the server. -/
theorem c3_validation_bounds_get_map_only (seed size now now2 : Int)
    (ts : List Int) (staging barren : Bool) (r : Response) :
    (∀ s : Int, exOk (validate_map_seed s) = true ↔
      0 ≤ s ∧ s ≤ 2147483645) ∧
    (∀ z : Int, exOk (validate_map_size z) = true ↔
      1000 ≤ z ∧ z ≤ 6000) ∧
    (¬((0 ≤ seed ∧ seed ≤ 2147483645) ∧ (1000 ≤ size ∧ size ≤ 6000)) →
      (get_map now now2 ts seed size staging barren r).state = ts ∧
      (get_map now now2 ts seed size staging barren r).warned = false ∧
      isValueError (get_map now now2 ts seed size staging barren r).result =
        true) ∧
    isValueError
      (generate_map now now2 ts seed size staging barren r).result = false := by
  refine ⟨?_, ?_, ?_, ?_⟩
  · intro s
    by_cases h : (0 : Int) ≤ s ∧ s ≤ 2147483645 <;>
      simp [validate_map_seed, MIN_MAP_SEED, MAX_MAP_SEED, h, exOk]
  · intro z
    by_cases h : (1000 : Int) ≤ z ∧ z ≤ 6000 <;>
      simp [validate_map_size, MIN_MAP_SIZE, MAX_MAP_SIZE, h, exOk]
  · intro h
    by_cases hs : (0 : Int) ≤ seed ∧ seed ≤ 2147483645
    · have hz : ¬((1000 : Int) ≤ size ∧ size ≤ 6000) := fun hz => h ⟨hs, hz⟩
      refine ⟨?_, ?_, ?_⟩ <;>
        simp [get_map, validate_map_seed, validate_map_size, MIN_MAP_SEED,
          MAX_MAP_SEED, MIN_MAP_SIZE, MAX_MAP_SIZE, hs, hz, isValueError]
    · refine ⟨?_, ?_, ?_⟩ <;>
        simp [get_map, validate_map_seed, MIN_MAP_SEED, MAX_MAP_SEED, hs,
          isValueError]
  · by_cases hrl : (is_rate_limited now ts).1
    · simp [generate_map, hrl, isValueError]
    · simpa [generate_map, hrl] using isValueError_interpret_generate r

/-- C3 witness: at seed −1 and size 500, `get_map` raises the validation
error with the record untouched. -/
theorem c3_validation_bounds_get_map_only_witness :
    (¬(((0 : Int) ≤ -1 ∧ (-1 : Int) ≤ 2147483645) ∧
        ((1000 : Int) ≤ 500 ∧ (500 : Int) ≤ 6000))) ∧
    (get_map 0 7 [] (-1) 500 false false ⟨200, Body.json []⟩).state = [] ∧
    isValueError
      (get_map 0 7 [] (-1) 500 false false ⟨200, Body.json []⟩).result =
      true := by
  have h := c3_validation_bounds_get_map_only (-1) 500 0 7 [] false false
    ⟨200, Body.json []⟩
  exact ⟨by decide, (h.2.2.1 (by decide)).1, (h.2.2.1 (by decide)).2.2⟩

/-- C4 counterexample: the claim says a 400 response whose body carries no
machine-readable reason surfaces a generic transport error.  The code instead
evaluates `r.json()['reason']` on any truthy JSON body, so a body that is a
non-empty object without a `reason` key raises `KeyError`, not the generic
`HTTPError`. -/
theorem c4_missing_reason_key_raises_key_error :
    (generate_map 0 7 [] 1 3000 false false
      ⟨400, Body.json [("other", JVal.str "x")]⟩).result =
      .error (.keyError "reason") ∧
    isTransportError (generate_map 0 7 [] 1 3000 false false
      ⟨400, Body.json [("other", JVal.str "x")]⟩).result = false := by
  refine ⟨rfl, rfl⟩

/-- C4 (amended): on a 400 response to the create operation, a truthy JSON
body whose `reason` value is truthy raises the domain error
(`RuntimeError(reason)`); a falsy (empty) JSON body or a falsy `reason` value
falls back to the generic transport error `HTTPError(400)`; a truthy JSON
body lacking the `reason` key raises `KeyError`; an unparsable body raises
the JSON decode error. -/
theorem c4_status400_body_dispatch (now now2 : Int) (ts : List Int)
    (seed size : Int) (staging barren : Bool) (f : List (String × JVal))
    (v : JVal) (hrl : (is_rate_limited now ts).1 = false) :
    (getKey? f "reason" = some v → truthy v = true →
      (generate_map now now2 ts seed size staging barren
        ⟨400, Body.json f⟩).result = .error (.runtimeError v)) ∧
    (getKey? f "reason" = some v → truthy v = false →
      (generate_map now now2 ts seed size staging barren
        ⟨400, Body.json f⟩).result = .error (.httpError 400)) ∧
    (f ≠ [] → getKey? f "reason" = none →
      (generate_map now now2 ts seed size staging barren
        ⟨400, Body.json f⟩).result = .error (.keyError "reason")) ∧
    (f = [] →
      (generate_map now now2 ts seed size staging barren
        ⟨400, Body.json f⟩).result = .error (.httpError 400)) ∧
    (generate_map now now2 ts seed size staging barren
      ⟨400, Body.invalid⟩).result = .error .decodeError := by
  refine ⟨?_, ?_, ?_, ?_, ?_⟩
  · intro h1 h2
    have hne : f.isEmpty = false := by
      cases f with
      | nil => simp [getKey?] at h1
      | cons _ _ => rfl
    simp [generate_map, hrl, interpret_generate, body_json, hne, h1, h2,
      raise_for_status]
  · intro h1 h2
    have hne : f.isEmpty = false := by
      cases f with
      | nil => simp [getKey?] at h1
      | cons _ _ => rfl
    simp [generate_map, hrl, interpret_generate, body_json, hne, h1, h2,
      raise_for_status]
  · intro h1 h2
    have hne : f.isEmpty = false := by
      cases f with
      | nil => exact absurd rfl h1
      | cons _ _ => rfl
    simp [generate_map, hrl, interpret_generate, body_json, hne, h2,
      raise_for_status]
  · intro h1
    subst h1
    simp [generate_map, hrl, interpret_generate, body_json, raise_for_status]
  · simp [generate_map, hrl, interpret_generate, body_json]

/-- C4 witness: the spec's own scenario — status 400 with body
`{"reason": "seed taken"}` raises the domain error carrying "seed taken". -/
theorem c4_status400_body_dispatch_witness :
    (is_rate_limited 0 ([] : List Int)).1 = false ∧
    getKey? [("reason", JVal.str "seed taken")] "reason" =
      some (JVal.str "seed taken") ∧
    truthy (JVal.str "seed taken") = true ∧
    (generate_map 0 7 [] 1 3000 false false
      ⟨400, Body.json [("reason", JVal.str "seed taken")]⟩).result =
      .error (.runtimeError (JVal.str "seed taken")) := by
  have h := c4_status400_body_dispatch 0 7 [] 1 3000 false false
    [("reason", JVal.str "seed taken")] (JVal.str "seed taken") (by decide)
  exact ⟨by decide, by decide, by decide, h.1 (by decide) (by decide)⟩

/-- C7: the elapsed time used for window membership is the true elapsed time
in seconds rounded up to the nearest whole second (proved against Mathlib's
rational ceiling); a call made 0.1 s ago counts as 1 second ago; membership
under the rounded value coincides with membership under the exact elapsed
time for the integer-second windows, so it is never looser; and an entry
whose rounded elapsed time is exactly 60 seconds is counted toward both the
per-minute and the per-hour counter by the scan. -/
theorem c7_elapsed_rounds_up (now s t w : Int)
    (h : elapsedSec now t = 60) :
    elapsedSec now s = ⌈((now - s : Int) : ℚ) / 1000000000⌉ ∧
    elapsedSec now (now - 100000000) = 1 ∧
    (elapsedSec now s ≤ w ↔ ((now - s : Int) : ℚ) / 1000000000 ≤ (w : ℚ)) ∧
    scanStamps now 1 [t] 0 0 0 = (1, 1, [t]) := by
  have hceil : elapsedSec now s = ⌈((now - s : Int) : ℚ) / 1000000000⌉ :=
    add_pred_div_pow9_eq_ceil (now - s)
  refine ⟨hceil, ?_, ?_, ?_⟩
  · show (now - (now - 100000000) + 999999999) / 1000000000 = 1
    omega
  · rw [hceil, Int.ceil_le]
  · show scanStamps now (0 + 1) [t] 0 0 0 = (1, 1, [t])
    rw [scanStamps]
    rw [dif_pos (by simp : 0 < [t].length)]
    simp only [List.getElem_cons_zero, h]
    norm_num [scanStamps]

/-- C7 witness: a timestamp exactly 60·10⁹ ns old rounds to 60 s and the
scan counts it toward both windows. -/
theorem c7_elapsed_rounds_up_witness :
    elapsedSec 60000000000 0 = 60 ∧
    elapsedSec 60000000000 (60000000000 - 100000000) = 1 ∧
    scanStamps 60000000000 1 [0] 0 0 0 = (1, 1, [0]) := by
  have h := c7_elapsed_rounds_up 60000000000 5 0 7 (by decide)
  exact ⟨by decide, h.2.1, h.2.2.2⟩

/-- C8 counterexample: the claim says every status other than the listed
ones surfaces a generic transport error carrying the status code.  But
`raise_for_status` is a no-op below 400, so a 204 response to a read
operation returns `None` with no error raised at all. -/
theorem c8_status204_read_no_error :
    (get_map_data 0 7 [] "url" ⟨204, Body.json []⟩).result = .ok none ∧
    isTransportError
      (get_map_data 0 7 [] "url" ⟨204, Body.json []⟩).result = false := by
  refine ⟨rfl, rfl⟩

/-- C8 (amended): for a dispatched call the status mapping is: read — 200 and
409 return the parsed payload, 404 returns the distinguished "does not
exist" result, any other status in [400, 600) raises the transport error
carrying the status, and any other status outside [400, 600) returns `None`
with no error (`raise_for_status` is a no-op there); create — 200 returns the
payload tagged `exists = False`, 409 returns it tagged `exists = True`, with
all other fields preserved. -/
theorem c8_status_outcome_mapping (now now2 : Int) (ts : List Int)
    (url : String) (seed size : Int) (staging barren : Bool) (r : Response)
    (f : List (String × JVal)) (k : String) (v : JVal) (st : Nat) (b : Body)
    (hrl : (is_rate_limited now ts).1 = false) :
    (get_map_data now now2 ts url r).result = interpret_get r ∧
    (generate_map now now2 ts seed size staging barren r).result =
      interpret_generate r ∧
    interpret_get ⟨200, Body.json f⟩ = .ok (some (.mapData f)) ∧
    interpret_get ⟨404, b⟩ = .ok (some .notGenerated) ∧
    interpret_get ⟨409, Body.json f⟩ = .ok (some (.mapData f)) ∧
    (st ≠ 200 → st ≠ 404 → st ≠ 409 → 400 ≤ st → st < 600 →
      interpret_get ⟨st, b⟩ = .error (.httpError st)) ∧
    (st ≠ 200 → st ≠ 404 → st ≠ 409 → ¬(400 ≤ st ∧ st < 600) →
      interpret_get ⟨st, b⟩ = .ok none) ∧
    interpret_generate ⟨200, Body.json f⟩ =
      .ok (some (setKey f "exists" (.bool false))) ∧
    interpret_generate ⟨409, Body.json f⟩ =
      .ok (some (setKey f "exists" (.bool true))) ∧
    getKey? (setKey f "exists" v) "exists" = some v ∧
    (k ≠ "exists" → getKey? (setKey f "exists" v) k = getKey? f k) := by
  refine ⟨?_, ?_, rfl, rfl, rfl, ?_, ?_, rfl, rfl, ?_, ?_⟩
  · simp [get_map_data, hrl]
  · simp [generate_map, hrl]
  · intro h200 h404 h409 hlo hhi
    simp [interpret_get, h200, h404, h409, raise_for_status, hlo, hhi]
  · intro h200 h404 h409 hout
    simp [interpret_get, h200, h404, h409, raise_for_status, hout]
  · exact getKey?_setKey_self f "exists" v
  · intro hk
    exact getKey?_setKey_ne f "exists" k v hk

/-- C8 witness: a 500 response to a read raises the transport error with the
status preserved, and the create tagging keeps the body's `mapId` field. -/
theorem c8_status_outcome_mapping_witness :
    (is_rate_limited 0 ([] : List Int)).1 = false ∧
    interpret_get ⟨500, Body.json []⟩ = .error (.httpError 500) ∧
    getKey? (setKey [("mapId", JVal.str "m")] "exists" (JVal.bool true))
      "mapId" = some (JVal.str "m") := by
  have h := c8_status_outcome_mapping 0 7 [] "url" 1 3000 false false
    ⟨500, Body.json []⟩ [("mapId", JVal.str "m")] "mapId" (JVal.bool true)
    500 (Body.json []) (by decide)
  exact ⟨by decide,
    h.2.2.2.2.2.1 (by decide) (by decide) (by decide) (by decide) (by decide),
    (h.2.2.2.2.2.2.2.2.2.2 (by decide)).trans rfl⟩

/-- C10: a read operation (by seed and size, or by identifier) that is
skipped due to rate limiting returns `None` (`Except.ok none`), which is a
value distinct from the not-found result `False` and from any parsed
payload; the create operation likewise returns `None` when skipped. -/
theorem c10_skip_returns_none (now now2 : Int) (ts : List Int)
    (seed size : Int) (map_id : String) (staging barren : Bool) (r : Response)
    (hs : MIN_MAP_SEED ≤ seed ∧ seed ≤ MAX_MAP_SEED)
    (hz : MIN_MAP_SIZE ≤ size ∧ size ≤ MAX_MAP_SIZE)
    (hu : validate_uuid map_id = true)
    (hrl : (is_rate_limited now ts).1 = true) :
    (get_map now now2 ts seed size staging barren r).result = .ok none ∧
    (get_map_by_id now now2 ts map_id staging barren r).result = .ok none ∧
    (generate_map now now2 ts seed size staging barren r).result =
      .ok none ∧
    (∀ g : List (String × JVal),
      (Except.ok (some (GetVal.mapData g)) : Except PyError (Option GetVal)) ≠
        .ok none) ∧
    ((Except.ok (some GetVal.notGenerated) :
        Except PyError (Option GetVal)) ≠ .ok none) := by
  refine ⟨?_, ?_, ?_, ?_, ?_⟩
  · simp [get_map, validate_map_seed, validate_map_size, hs, hz,
      get_map_data, hrl]
  · simp [get_map_by_id, hu, get_map_data, hrl]
  · simp [generate_map, hrl]
  · intro g
    simp
  · simp

/-- C10 witness: the seed, size and map id of the repository's own test
suite, against a fully occupied minute window. -/
theorem c10_skip_returns_none_witness :
    (is_rate_limited 0 (List.replicate 80 (0 : Int))).1 = true ∧
    validate_uuid "474b4c64-ab86-4128-a075-e88737fa5820" = true ∧
    (get_map 0 7 (List.replicate 80 (0 : Int)) 590877946 2500 false false
      ⟨200, Body.json []⟩).result = .ok none ∧
    (get_map_by_id 0 7 (List.replicate 80 (0 : Int))
      "474b4c64-ab86-4128-a075-e88737fa5820" false false
      ⟨200, Body.json []⟩).result = .ok none := by
  have h := c10_skip_returns_none 0 7 (List.replicate 80 (0 : Int))
    590877946 2500 "474b4c64-ab86-4128-a075-e88737fa5820" false false
    ⟨200, Body.json []⟩ (by decide) (by decide) (by decide) (by decide)
  exact ⟨by decide, by decide, h.1, h.2.1⟩
